import Mathlib

/-!
Powker middle-layer clients: shallow embedding and verification

This file embeds the three browser-client source files of the repository
(`src/static/js/game.js` — the game-room controller, `src/unnamed/part_000`
— the lobby client, `src/unnamed/part_001` — the ability-selection manager)
as pure Lean functions, and proves or refutes the specification claims
about them.

JavaScript idioms are embedded explicitly:
* a possibly-`null`/`undefined` value is an `Option`;
* `x || d` on numbers is `jsOrInt` (note `0` is falsy), on strings `jsOrStr`
  (note `""` is falsy);
* `String.prototype.split(sep)` is `jsSplit` (leftmost, non-overlapping,
  keeps empty pieces), `String.prototype.toLowerCase` is `jsToLower`;
* a statement that would throw (e.g. reading `[0]` of an empty string and
  calling a method on the resulting `undefined`) makes the embedded
  function return `none`.
Outbound `socket.emit` calls are collected in a `List OutMsg`.
-/

/-- JS `x || d` for a possibly-absent number: `null`, `undefined` and `0`
are falsy and give the default. -/
def jsOrInt (x : Option Int) (d : Int) : Int :=
  match x with
  | none => d
  | some v => if v = 0 then d else v

/-- JS `x || d` for a possibly-absent string: `null`, `undefined` and `""`
are falsy and give the default. -/
def jsOrStr (x : Option String) (d : String) : String :=
  match x with
  | none => d
  | some v => if v = "" then d else v

/-- JS truthiness of a possibly-absent string (`!x` is this negated). -/
def jsTruthyStr (x : Option String) : Bool :=
  match x with
  | none => false
  | some v => v ≠ ""

/-- Fuel-driven worker for `jsSplit`: scans the character list left to
right, cutting at each non-overlapping occurrence of `sep`.  The fuel is
set to the length of the list plus one, which every call consumes more
slowly than the list, so the fuel-exhausted branch is never reached. -/
def splitFuel (sep : List Char) : Nat → List Char → List Char → List (List Char)
  | 0, l, acc => [acc.reverse ++ l]
  | _ + 1, [], acc => [acc.reverse]
  | fuel + 1, c :: rest, acc =>
      if sep.isPrefixOf (c :: rest) then
        acc.reverse :: splitFuel sep fuel (List.drop sep.length (c :: rest)) []
      else
        splitFuel sep fuel rest (c :: acc)

/-- JS `s.split(sep)`: splits at every leftmost non-overlapping occurrence
of `sep`, keeping empty pieces; an empty separator splits into single
characters. -/
def jsSplit (s sep : String) : List String :=
  if sep = "" then s.data.map (fun c => String.mk [c])
  else (splitFuel sep.data (s.data.length + 1) s.data []).map String.mk

/-- JS `s.toLowerCase()` (the card strings involved are ASCII). -/
def jsToLower (s : String) : String :=
  String.mk (s.data.map Char.toLower)

/-! ## `parseCard` (game.js, lines 268–302) -/

/-- The object `{display, isRed}` returned by `parseCard`. -/
structure CardInfo where
  display : String
  isRed : Bool
deriving DecidableEq, Repr

/-- Body of `parseCard` after the split call, abstracted over the
resulting pieces.  `none` marks the one statement that throws in the
source: when the suit piece is the empty string, `suit[0]` is `undefined`
and `.toUpperCase()` raises a `TypeError`. -/
def parseCardParts (cardString : String) (parts : List String) : Option CardInfo :=
  if parts.length ≠ 2 then some ⟨cardString, false⟩
  else
    let rank := parts.getD 0 ""
    let suit := parts.getD 1 ""
    let shortRank :=
      if rank = "ace" then "A"
      else if rank = "king" then "K"
      else if rank = "queen" then "Q"
      else if rank = "jack" then "J"
      else rank
    if suit = "hearts" then some ⟨shortRank ++ "♥", true⟩
    else if suit = "diamonds" then some ⟨shortRank ++ "♦", true⟩
    else if suit = "clubs" then some ⟨shortRank ++ "♣", false⟩
    else if suit = "spades" then some ⟨shortRank ++ "♠", false⟩
    else
      match suit.data with
      | [] => none
      | c :: _ => some ⟨shortRank ++ String.mk [c.toUpper], false⟩

/-- Function `parseCard` from game.js: lowercase, split on `" of "`, fall back to
the verbatim input when the piece count is not 2, otherwise shorten the
rank and map the suit to a symbol and a color. -/
def parseCard (cardString : String) : Option CardInfo :=
  parseCardParts cardString (jsSplit (jsToLower cardString) " of ")

/-- Characterization of the throwing inputs of the body of `parseCard`: it
fails to return exactly when the split produced two pieces and the suit
piece is empty. -/
theorem parseCardParts_none_iff (s : String) (parts : List String) :
    parseCardParts s parts = none ↔ parts.length = 2 ∧ parts.getD 1 "" = "" := by
  unfold parseCardParts
  split
  · simp_all
  · rename_i h2
    simp only [ne_eq, Decidable.not_not] at h2
    dsimp only
    split
    · simp_all
    · split
      · simp_all
      · split
        · simp_all
        · split
          · simp_all
          · split
            · rename_i hd
              constructor
              · intro _
                refine ⟨h2, ?_⟩
                apply String.ext
                simpa using hd
              · intro _
                rfl
            · rename_i c cs hd
              constructor
              · intro h
                simp at h
              · intro ⟨_, hempty⟩
                exfalso
                have : (parts.getD 1 "").data = [] := by rw [hempty]
                rw [hd] at this
                simp at this

/-! ## Game snapshot structures (the shape game.js reads) -/

/-- Field `TurnManager` of the game snapshot. -/
structure TurnManagerState where
  CurrentBet : Int
deriving DecidableEq, Repr

/-- One entry of the `Abilities` array of a player. -/
structure AbilityInfo where
  Name : String
  Description : String
  abilityType : String
deriving DecidableEq, Repr

/-- One entry of `gameState.Players`.  Fields the server may omit are
`Option`s. -/
structure PlayerState where
  Name : String
  Balance : Int
  CurrentBet : Int
  IsMyTurn : Bool
  IsFolded : Bool
  IsAllIn : Bool
  HasActedThisRound : Bool
  HoleCards : Option (List String)
  Abilities : Option (List AbilityInfo)
deriving DecidableEq, Repr

/-- The game snapshot held in `this.gameState`. -/
structure GameState where
  CurrentPhase : Option String
  Pot : Option Int
  TurnManager : Option TurnManagerState
  CurrentPlayer : Option String
  Players : Option (List PlayerState)
  Board : Option (List String)
deriving DecidableEq, Repr

/-! ## Derived view regions (the DOM written by `updateGameDisplay`) -/

/-- One item of the per-seat turn list. -/
structure TurnItem where
  statusClass : Option String
  statusText : String
  lastAction : Option String
  nameText : String
  betText : Int
deriving DecidableEq, Repr

/-- The `players-turn-list` container. -/
inductive TurnListView
  | noPlayers
  | items (l : List TurnItem)
deriving DecidableEq, Repr

/-- The `hole-cards` container. -/
inductive HoleView
  | placeholder
  | revealed (cards : List (Option CardInfo))
deriving DecidableEq, Repr

/-- The `board-cards` container: either all five placeholders, or the
revealed community cards followed by the remaining placeholder names. -/
inductive BoardView
  | placeholders
  | revealed (cards : List (Option CardInfo)) (hidden : List String)
deriving DecidableEq, Repr

/-- The `ability-cards` container. -/
inductive AbilitiesView
  | noState
  | noAbilities
  | list (l : List AbilityInfo)
deriving DecidableEq, Repr

/-- All derived view regions recomputed by `updateGameDisplay`. -/
structure GameView where
  phaseText : String
  potText : String
  betText : Int
  turnList : TurnListView
  holeCards : HoleView
  board : BoardView
  abilities : AbilitiesView
deriving DecidableEq, Repr

/-- Turn-status text of one seat (game.js, lines 220–231): first matching
flag in the order my-turn, folded, all-in, acted-this-round, to-act. -/
def turnStatusText (p : PlayerState) : String :=
  if p.IsMyTurn then "Current Turn"
  else if p.IsFolded then "Folded"
  else if p.IsAllIn then "All In"
  else if p.HasActedThisRound then "Waiting"
  else "To Act"

/-- CSS status class of one seat (game.js, lines 208–217): same priority
chain, but no class at all for a to-act seat. -/
def turnStatusClass (p : PlayerState) : Option String :=
  if p.IsMyTurn then some "current-turn"
  else if p.IsFolded then some "folded"
  else if p.IsAllIn then some "all-in"
  else if p.HasActedThisRound then some "acted"
  else none

/-- Last-action chip of one seat (game.js, lines 234–247). -/
def lastActionChip (p : PlayerState) : Option String :=
  if p.HasActedThisRound && !p.IsFolded && !p.IsAllIn then
    some (if p.CurrentBet = 0 then "Check" else "Call")
  else if p.IsFolded then some "Fold"
  else if p.IsAllIn then some "All In"
  else none

/-- One rendered `player-turn-item`. -/
def renderTurnItem (p : PlayerState) : TurnItem :=
  { statusClass := turnStatusClass p
    statusText := turnStatusText p
    lastAction := lastActionChip p
    nameText := p.Name ++ " ($" ++ toString p.Balance ++ ")"
    betText := p.CurrentBet }

/-- Function `updateTurnIndicator`: placeholder text without a snapshot or a
`Players` array, otherwise one item per seat. -/
def updateTurnIndicator (gs : Option GameState) : TurnListView :=
  match gs with
  | none => .noPlayers
  | some g =>
    match g.Players with
    | none => .noPlayers
    | some ps => .items (ps.map renderTurnItem)

/-- Function `updateHoleCards`: early-returns (keeping the previous DOM) without a
snapshot or `Players`; otherwise renders the first seat owning a
non-empty `HoleCards` array, or the two placeholders. -/
def updateHoleCards (gs : Option GameState) (prev : HoleView) : HoleView :=
  match gs with
  | none => prev
  | some g =>
    match g.Players with
    | none => prev
    | some ps =>
      match ps.find? (fun p => !(p.HoleCards.getD []).isEmpty) with
      | some p => .revealed ((p.HoleCards.getD []).map parseCard)
      | none => .placeholder

/-- The five board placeholder names. -/
def boardCardNames : List String := ["Flop 1", "Flop 2", "Flop 3", "Turn", "River"]

/-- Function `updateBoardCards` (called with a snapshot present). -/
def updateBoardCards (g : GameState) : BoardView :=
  match g.Board with
  | none => .placeholders
  | some b =>
    if 0 < b.length then .revealed (b.map parseCard) (boardCardNames.drop b.length)
    else .placeholders

/-- Function `updateAbilities`: placeholder without a snapshot or `Players`,
otherwise the first seat owning a non-empty `Abilities` array. -/
def updateAbilities (gs : Option GameState) : AbilitiesView :=
  match gs with
  | none => .noState
  | some g =>
    match g.Players with
    | none => .noState
    | some ps =>
      match ps.find? (fun p => !(p.Abilities.getD []).isEmpty) with
      | some p => .list (p.Abilities.getD [])
      | none => .noAbilities

/-- JS template interpolation of a possibly-absent string. -/
def showOptStr (o : Option String) : String :=
  match o with
  | some s => s
  | none => "undefined"

/-- JS template interpolation of a possibly-absent number. -/
def showOptInt (o : Option Int) : String :=
  match o with
  | some i => toString i
  | none => "undefined"

/-- The `Phase: …, Pot: …, Current Player: …` log line appended at the end
of `updateGameDisplay`. -/
def displayLogLine (g : GameState) : String :=
  "Phase: " ++ showOptStr g.CurrentPhase ++ ", Pot: " ++ showOptInt g.Pot ++
    ", Current Player: " ++ jsOrStr g.CurrentPlayer "None"

/-- Function `addActionLog`: append, then drop the oldest entry once more than 20
are held. -/
def addActionLog (log : List String) (message : String) : List String :=
  let l2 := log ++ [message]
  if 20 < l2.length then l2.drop 1 else l2

/-- The DOM-writing part of `updateGameDisplay` (game.js, lines 168–186),
given a present snapshot: recompute phase, pot and bet banner, turn list,
own hole cards, board, and own ability list. -/
def renderDisplay (g : GameState) (v : GameView) : GameView :=
  { phaseText := jsOrStr g.CurrentPhase "-----"
    potText := toString (jsOrInt g.Pot 0)
    betText :=
      match g.TurnManager with
      | some tm => tm.CurrentBet
      | none => 0
    turnList := updateTurnIndicator (some g)
    holeCards := updateHoleCards (some g) v.holeCards
    board := updateBoardCards g
    abilities := updateAbilities (some g) }

/-- Function `updateGameDisplay`: bail out (view and log untouched) without a
snapshot, otherwise rewrite every region and append the summary log
line. -/
def updateGameDisplay (gs : Option GameState) (v : GameView) (log : List String) :
    GameView × List String :=
  match gs with
  | none => (v, log)
  | some g => (renderDisplay g v, addActionLog log (displayLogLine g))

/-! ## The game-room event handlers (`registerGameEvents`) -/

/-- Payload `data.PlayerAction` of a `player_action_result` push. -/
structure PlayerActionInfo where
  PlayerName : String
  Action : String
  Amount : Option Int
deriving DecidableEq, Repr

/-- The mutable client state touched by the state-push handlers. -/
structure ClientState where
  gameState : Option GameState
  view : GameView
  log : List String
deriving DecidableEq, Repr

/-- The four inbound pushes the spec calls state pushes. -/
inductive GameEvent
  | gameStarted (gameState : GameState)
  | gameStateUpdate (gameState : GameState)
  | playerActionResult (action : PlayerActionInfo) (gameState : Option GameState)
  | abilityResult (message : String)
deriving DecidableEq, Repr

/-- The log line of the `player_action_result` handler: player name,
lowercased action, and the dollar amount when truthy. -/
def actionLogLine (a : PlayerActionInfo) : String :=
  a.PlayerName ++ " " ++ jsToLower a.Action ++
    (match a.Amount with
     | some amt => if amt = 0 then "" else " $" ++ toString amt
     | none => "")

/-- The handlers registered by `registerGameEvents` for the four pushes:
`game_started` and `game_state_update` replace the snapshot and rerun
`updateGameDisplay`; `player_action_result` does so only when the push
carries a `GameState`; `ability_result` only appends to the action log. -/
def handleGameEvent (st : ClientState) (e : GameEvent) : ClientState :=
  match e with
  | .gameStarted gs =>
      let log1 := addActionLog st.log "Game started!"
      let p := updateGameDisplay (some gs) st.view log1
      { gameState := some gs, view := p.1, log := p.2 }
  | .gameStateUpdate gs =>
      let p := updateGameDisplay (some gs) st.view st.log
      { gameState := some gs, view := p.1, log := p.2 }
  | .playerActionResult a ogs =>
      let log1 := addActionLog st.log (actionLogLine a)
      match ogs with
      | some gs =>
          let p := updateGameDisplay (some gs) st.view log1
          { gameState := some gs, view := p.1, log := p.2 }
      | none => { st with log := log1 }
  | .abilityResult m => { st with log := addActionLog st.log m }

/-! ## Concrete sample values used by counterexamples and witnesses -/

/-- The view as first laid out by the HTML page (all placeholders). -/
def initialView : GameView :=
  { phaseText := "-----"
    potText := "0"
    betText := 0
    turnList := .noPlayers
    holeCards := .placeholder
    board := .placeholders
    abilities := .noState }

/-- A minimal snapshot whose recomputed view differs from `initialView`. -/
def sampleGameState : GameState :=
  { CurrentPhase := some "FLOP"
    Pot := some 50
    TurnManager := some ⟨20⟩
    CurrentPlayer := some "Ann"
    Players := none
    Board := none }

/-- A client holding `sampleGameState` while the page still shows
`initialView`. -/
def sampleClientState : ClientState :=
  { gameState := some sampleGameState, view := initialView, log := [] }

/-- A seat that is simultaneously folded and all-in (and not on turn). -/
def sampleFoldedAllInSeat : PlayerState :=
  { Name := "Bob"
    Balance := 0
    CurrentBet := 30
    IsMyTurn := false
    IsFolded := true
    IsAllIn := true
    HasActedThisRound := true
    HoleCards := none
    Abilities := none }

/-- C1 counterexample: the claim says every one of the four pushes is
handled by replacing the snapshot and recomputing every derived view
region.  At a concrete client whose displayed view is stale, the
`ability_result` handler leaves the snapshot and every view region
exactly as they were (only the action log grows), even though
recomputing from the held snapshot would change the view — so the
`ability_result` push does not take the replace-and-recompute path. -/
theorem abilityResult_not_full_update :
    (handleGameEvent sampleClientState (.abilityResult "Peek used")).view = initialView ∧
    (handleGameEvent sampleClientState (.abilityResult "Peek used")).gameState =
      some sampleGameState ∧
    renderDisplay sampleGameState initialView ≠ initialView := by
  refine ⟨rfl, rfl, ?_⟩
  decide

/-- C1 (amended): `game_started` and `game_state_update` replace the held
snapshot with the pushed state and rerun the full display refresh;
`player_action_result` does so only when its payload carries a
`GameState`, and leaves snapshot and view untouched otherwise;
`ability_result` never touches the snapshot or any view region — it only
appends to the action log, the state for abilities arriving via a
separate `game_state_update` push. -/
theorem statePush_handling (st : ClientState) (gs : GameState)
    (a : PlayerActionInfo) (m : String) :
    (handleGameEvent st (.gameStarted gs)).gameState = some gs ∧
    (handleGameEvent st (.gameStarted gs)).view = renderDisplay gs st.view ∧
    (handleGameEvent st (.gameStateUpdate gs)).gameState = some gs ∧
    (handleGameEvent st (.gameStateUpdate gs)).view = renderDisplay gs st.view ∧
    (handleGameEvent st (.playerActionResult a (some gs))).gameState = some gs ∧
    (handleGameEvent st (.playerActionResult a (some gs))).view = renderDisplay gs st.view ∧
    (handleGameEvent st (.playerActionResult a none)).gameState = st.gameState ∧
    (handleGameEvent st (.playerActionResult a none)).view = st.view ∧
    (handleGameEvent st (.abilityResult m)).gameState = st.gameState ∧
    (handleGameEvent st (.abilityResult m)).view = st.view := by
  refine ⟨rfl, rfl, rfl, rfl, rfl, rfl, rfl, rfl, rfl, rfl⟩

/-- C2 counterexample: `parseCard` is not total — on `"3 of "` the split
yields a second piece `""`, no suit case matches, and `suit[0]` is
`undefined`, so `.toUpperCase()` throws a `TypeError`. -/
theorem parseCard_throws_on_empty_suit : parseCard "3 of " = none := by decide

/-- C2 (amended): `parseCard` is pure and returns a display/color pair for
every input string except those whose lowercasing splits on `" of "` into
exactly two pieces with an empty suit piece (such as `"3 of "`), where it
throws; on the examples of the spec it returns `A♠` black, `3♥` red, and the
verbatim fallback `Joker` black. -/
theorem parseCard_spec :
    (∀ s : String, parseCard s = none ↔
      (jsSplit (jsToLower s) " of ").length = 2 ∧
        (jsSplit (jsToLower s) " of ").getD 1 "" = "") ∧
    parseCard "Ace of Spades" = some ⟨"A♠", false⟩ ∧
    parseCard "3 of Hearts" = some ⟨"3♥", true⟩ ∧
    parseCard "Joker" = some ⟨"Joker", false⟩ := by
  refine ⟨fun s => parseCardParts_none_iff s _, by decide, by decide, by decide⟩

/-- C7: the rendered turn status of a seat is the first matching flag in
the priority order my-turn, folded, all-in, acted-this-round, to-act; in
particular a seat both folded and all-in is classified `Folded`, never
`All In`. -/
theorem turnStatus_priority (p : PlayerState) :
    (p.IsMyTurn = true → (renderTurnItem p).statusText = "Current Turn") ∧
    (p.IsMyTurn = false → p.IsFolded = true →
      (renderTurnItem p).statusText = "Folded") ∧
    (p.IsMyTurn = false → p.IsFolded = false → p.IsAllIn = true →
      (renderTurnItem p).statusText = "All In") ∧
    (p.IsMyTurn = false → p.IsFolded = false → p.IsAllIn = false →
      p.HasActedThisRound = true → (renderTurnItem p).statusText = "Waiting") ∧
    (p.IsMyTurn = false → p.IsFolded = false → p.IsAllIn = false →
      p.HasActedThisRound = false → (renderTurnItem p).statusText = "To Act") ∧
    (p.IsFolded = true → p.IsAllIn = true → p.IsMyTurn = false →
      (renderTurnItem p).statusText = "Folded") := by
  unfold renderTurnItem turnStatusText
  and_intros <;> intros <;> simp_all

/-- C7 witness: a concrete folded and all-in seat renders as `Folded`. -/
theorem turnStatus_priority_witness :
    (renderTurnItem sampleFoldedAllInSeat).statusText = "Folded" := by
  have h := turnStatus_priority sampleFoldedAllInSeat
  exact h.2.2.2.2.2 rfl rfl rfl

/-! ## Outbound socket messages -/

/-- The `…selection` object spread into a `use_ability` emit by
`confirmSelection`; one constructor per payload shape produced by the
`getSelectionData` dispatch. -/
inductive AbilityPayload
  | peek (targetPlayerId cardIndex : Int)
  | burn (revealSuit : Bool)
  | manifest (discardIndex : Int) (drawnCard drawnCardSuit : Option String)
  | trashman1 (burntCardIndex : Int)
  | trashman2 (burntCardIndex holeCardIndex : Int)
  | yoink (cardIndex targetPlayerId : Int)
deriving DecidableEq, Repr

/-- Every `socket.emit` the embedded code can issue. -/
inductive OutMsg
  | joinGame (gameId playerToken : String)
  | createLobby (name : String) (smallBlind bigBlind startingFunds maxPlayers : Int)
  | useAbilityStart (gameId ability : String)
  | useAbility (gameId ability : String) (payload : AbilityPayload)
  | cancelAbility (gameId : String)
deriving DecidableEq, Repr

/-! ## Lobby client (`part_000`) -/

/-- One entry of `lobby.players`. -/
structure LobbyPlayer where
  username : String
  socketId : String
  isHost : Bool
  isReady : Bool
deriving DecidableEq, Repr

/-- The `config` object of a lobby. -/
structure LobbyConfig where
  smallBlind : Int
  bigBlind : Int
  startingFunds : Int
  maxPlayers : Int
deriving DecidableEq, Repr

/-- A lobby snapshot as pushed by the server. -/
structure Lobby where
  name : String
  code : String
  players : List LobbyPlayer
  config : LobbyConfig
deriving DecidableEq, Repr

/-- The rendered state of the `start-game-btn`. -/
structure StartButton where
  disabled : Bool
  label : String
deriving DecidableEq, Repr

/-- Function `updateStartButton` (part_000, lines 530–548): bail out for a
non-host or without a lobby; otherwise enabled iff at least 2 players
and everyone ready, with the label naming the blocking reason. -/
def updateStartButton (isHost : Bool) (currentLobby : Option Lobby)
    (prev : StartButton) : StartButton :=
  if !isHost then prev
  else
    match currentLobby with
    | none => prev
    | some l =>
      let canStart := decide (2 ≤ l.players.length) && l.players.all (fun p => p.isReady)
      { disabled := !canStart
        label :=
          if canStart then "Start Game"
          else if l.players.length < 2 then "Need More Players"
          else "Waiting for Players" }

/-- The three lobby-room pushes whose handlers refresh the player list
and the start button (part_000, lines 83–102). -/
inductive LobbyRoomEvent
  | playerJoined (lobby : Lobby) (message : String)
  | playerLeft (lobby : Lobby) (message : String)
  | playerReadyChanged (lobby : Lobby) (message : String)
deriving DecidableEq, Repr

/-- The snapshot carried by a lobby-room push. -/
def eventLobby : LobbyRoomEvent → Lobby
  | .playerJoined l _ => l
  | .playerLeft l _ => l
  | .playerReadyChanged l _ => l

/-- The lobby-client state touched by the lobby-room handlers. -/
structure LobbyClientState where
  currentLobby : Option Lobby
  isHost : Bool
  isReady : Bool
  ownSocketId : String
  startButton : StartButton
deriving DecidableEq, Repr

/-- Side effect of `updatePlayersDisplay` on `this.isReady`: each listed
player whose socket id is ours overwrites it (the last one wins). -/
def updatePlayersDisplayReady (own : String) (l : Option Lobby) (prev : Bool) : Bool :=
  match l with
  | none => prev
  | some lob => lob.players.foldl (fun r p => if p.socketId = own then p.isReady else r) prev

/-- The `player_joined` / `player_left` / `player_ready_changed` handlers:
store the pushed lobby, refresh the players display, then recompute the
start button from the freshly stored snapshot. -/
def handleLobbyRoomEvent (st : LobbyClientState) (e : LobbyRoomEvent) : LobbyClientState :=
  let l := eventLobby e
  let st1 := { st with
    currentLobby := some l
    isReady := updatePlayersDisplayReady st.ownSocketId (some l) st.isReady }
  { st1 with startButton := updateStartButton st1.isHost st1.currentLobby st1.startButton }

/-- A field-scoped error display produced by `showError` (part_000,
lines 156–165): message shown on the named element, removed again after
`hideAfterMs` milliseconds. -/
structure FieldError where
  elementId : String
  message : String
  hideAfterMs : Int
deriving DecidableEq, Repr

/-- Function `showError`: show the message on the element and schedule its removal
after 5 seconds. -/
def showError (elementId message : String) : FieldError :=
  { elementId := elementId, message := message, hideAfterMs := 5000 }

/-- The default lobby name suffix: apostrophe, s, space, Table (built from
character codes; 39 is the apostrophe). -/
def tableSuffix : String :=
  String.mk [Char.ofNat 39, 's', ' ', 'T', 'a', 'b', 'l', 'e']

/-- Function `createLobby` (part_000, lines 315–342): resolve each parsed input
with its JS `||` default, validate the two blind/funds inequalities, and
either show a scoped error (no emit) or emit `create_lobby` carrying
exactly the resolved values. -/
def createLobby (username lobbyName : String)
    (smallBlindIn bigBlindIn startingFundsIn maxPlayersIn : Option Int) :
    List OutMsg × Option FieldError :=
  let smallBlind := jsOrInt smallBlindIn 5
  let bigBlind := jsOrInt bigBlindIn 10
  let startingFunds := jsOrInt startingFundsIn 1000
  let maxPlayers := jsOrInt maxPlayersIn 8
  if bigBlind < smallBlind * 2 then
    ([], some (showError "create-lobby-error" "Big blind must be at least double the small blind"))
  else if startingFunds < bigBlind * 10 then
    ([], some (showError "create-lobby-error" "Starting funds must be at least 10 times the big blind"))
  else
    ([.createLobby (jsOrStr (some lobbyName) (username ++ tableSuffix))
        smallBlind bigBlind startingFunds maxPlayers], none)

/-! ## `joinGame` and the join confirmation (game.js, lines 55–62 and 114–135) -/

/-- Function `joinGame`: read the stored token; a missing (or empty, hence falsy)
token is a logged local error with no emit; otherwise emit `join_game`
with the token.  Returns the emits, the token store after the call
(never cleared here), and the log lines added. -/
def joinGame (gameId : String) (storedToken : Option String) :
    List OutMsg × Option String × List String :=
  match storedToken with
  | some t =>
    if t = "" then
      ([], storedToken, ["Joining game room...", "Error: No authentication token found"])
    else
      ([.joinGame gameId t], storedToken, ["Joining game room..."])
  | none =>
      ([], storedToken, ["Joining game room...", "Error: No authentication token found"])

/-- Effect of the `game_room_joined` handler on the token store: the
stored player token is removed. -/
def handleGameRoomJoined (_storedToken : Option String) : Option String :=
  none

/-- A ready two-player lobby used by the C5 witness. -/
def sampleLobby : Lobby :=
  { name := "Fun Table"
    code := "ABCDEF"
    players :=
      [ { username := "ann", socketId := "s1", isHost := true, isReady := true }
      , { username := "bob", socketId := "s2", isHost := false, isReady := true } ]
    config := { smallBlind := 5, bigBlind := 10, startingFunds := 1000, maxPlayers := 8 } }

/-- A host client used by the C5 witness. -/
def sampleLobbyClient : LobbyClientState :=
  { currentLobby := none
    isHost := true
    isReady := false
    ownSocketId := "s1"
    startButton := { disabled := true, label := "Need More Players" } }

/-- C5: on every lobby-room push the start button is recomputed as a pure
function of the pushed snapshot: enabled iff the snapshot has at least 2
players all of whom are ready, labelled `Start Game` when enabled,
`Need More Players` below 2 players, and `Waiting for Players` with
enough players but someone not ready. -/
theorem startButton_spec (st : LobbyClientState) (e : LobbyRoomEvent)
    (hhost : st.isHost = true) :
    ((handleLobbyRoomEvent st e).startButton =
      updateStartButton true (some (eventLobby e)) st.startButton) ∧
    ((handleLobbyRoomEvent st e).startButton.disabled = false ↔
      2 ≤ (eventLobby e).players.length ∧
        ∀ p ∈ (eventLobby e).players, p.isReady = true) ∧
    ((handleLobbyRoomEvent st e).startButton.disabled = false →
      (handleLobbyRoomEvent st e).startButton.label = "Start Game") ∧
    ((eventLobby e).players.length < 2 →
      (handleLobbyRoomEvent st e).startButton.label = "Need More Players") ∧
    (2 ≤ (eventLobby e).players.length →
      (∃ p ∈ (eventLobby e).players, p.isReady = false) →
      (handleLobbyRoomEvent st e).startButton.label = "Waiting for Players") := by
  have hb : (handleLobbyRoomEvent st e).startButton =
      updateStartButton true (some (eventLobby e)) st.startButton := by
    unfold handleLobbyRoomEvent
    simp [hhost]
  have hd : (updateStartButton true (some (eventLobby e)) st.startButton).disabled =
      !(decide (2 ≤ (eventLobby e).players.length) &&
        (eventLobby e).players.all (fun p => p.isReady)) := rfl
  have hl : (updateStartButton true (some (eventLobby e)) st.startButton).label =
      (if decide (2 ≤ (eventLobby e).players.length) &&
          (eventLobby e).players.all (fun p => p.isReady) then "Start Game"
        else if (eventLobby e).players.length < 2 then "Need More Players"
        else "Waiting for Players") := rfl
  refine ⟨hb, ?_, ?_, ?_, ?_⟩ <;> rw [hb]
  · rw [hd]
    simp [List.all_eq_true]
  · intro h
    rw [hd] at h
    simp [List.all_eq_true] at h
    have hc : (decide (2 ≤ (eventLobby e).players.length) &&
        (eventLobby e).players.all fun p => p.isReady) = true := by
      simp [List.all_eq_true]
      exact ⟨h.1, h.2⟩
    rw [hl, if_pos hc]
  · intro h
    have h2 : decide (2 ≤ (eventLobby e).players.length) = false := by
      simp
      omega
    rw [hl, if_neg, if_pos h]
    simp [h2]
  · intro h2 hex
    obtain ⟨p, hp, hpr⟩ := hex
    have hall : (eventLobby e).players.all (fun p => p.isReady) = false := by
      simp only [List.all_eq_false]
      exact ⟨p, hp, by simp [hpr]⟩
    rw [hl, if_neg, if_neg (by omega)]
    simp [hall]

/-- C5 witness: a host receiving a `player_ready_changed` push with two
ready players gets an enabled `Start Game` button. -/
theorem startButton_spec_witness :
    (handleLobbyRoomEvent sampleLobbyClient
        (.playerReadyChanged sampleLobby "ready")).startButton =
      { disabled := false, label := "Start Game" } := by
  have h := startButton_spec sampleLobbyClient (.playerReadyChanged sampleLobby "ready") rfl
  rw [h.1]
  decide

/-- C3: `joinGame` emits `join_game` iff a non-empty token is stored (a
missing or empty token is a logged local error with no send), the call
itself never clears the store, and the store is cleared exactly by the
`game_room_joined` confirmation handler. -/
theorem joinGame_token_protocol (gameId : String) (store : Option String) :
    ((joinGame gameId store).1 = [] ↔ jsTruthyStr store = false) ∧
    (∀ t, store = some t → t ≠ "" →
      (joinGame gameId store).1 = [.joinGame gameId t]) ∧
    (jsTruthyStr store = false →
      (joinGame gameId store).1 = [] ∧
      "Error: No authentication token found" ∈ (joinGame gameId store).2.2) ∧
    ((joinGame gameId store).2.1 = store) ∧
    (∀ s : Option String, handleGameRoomJoined s = none) := by
  cases store with
  | none => simp [joinGame, jsTruthyStr, handleGameRoomJoined]
  | some t =>
    by_cases ht : t = "" <;>
      simp [joinGame, jsTruthyStr, handleGameRoomJoined, ht]

/-- C3 witness: with a stored token `tok` the emit carries it. -/
theorem joinGame_token_protocol_witness :
    (joinGame "g42" (some "tok")).1 = [.joinGame "g42" "tok"] := by
  have h := joinGame_token_protocol "g42" (some "tok")
  exact h.2.1 "tok" rfl (by decide)

/-- C6: a create-lobby submission whose resolved values satisfy
`bigBlind ≥ 2·smallBlind` and `startingFunds ≥ 10·bigBlind` emits
`create_lobby` carrying exactly those values and shows no error; a
submission violating either inequality emits nothing and shows an error
scoped to `create-lobby-error` that auto-expires after 5000 ms. -/
theorem createLobby_spec (username lobbyName : String)
    (sbIn bbIn sfIn mpIn : Option Int) :
    (jsOrInt sbIn 5 * 2 ≤ jsOrInt bbIn 10 →
      jsOrInt bbIn 10 * 10 ≤ jsOrInt sfIn 1000 →
      createLobby username lobbyName sbIn bbIn sfIn mpIn =
        ([.createLobby (jsOrStr (some lobbyName) (username ++ tableSuffix))
            (jsOrInt sbIn 5) (jsOrInt bbIn 10) (jsOrInt sfIn 1000) (jsOrInt mpIn 8)],
          none)) ∧
    (jsOrInt bbIn 10 < jsOrInt sbIn 5 * 2 ∨ jsOrInt sfIn 1000 < jsOrInt bbIn 10 * 10 →
      (createLobby username lobbyName sbIn bbIn sfIn mpIn).1 = [] ∧
      ∃ msg, (createLobby username lobbyName sbIn bbIn sfIn mpIn).2 =
        some { elementId := "create-lobby-error", message := msg, hideAfterMs := 5000 }) := by
  unfold createLobby showError
  dsimp only
  constructor
  · intro h1 h2
    rw [if_neg (by omega), if_neg (by omega)]
  · intro h
    by_cases hbb : jsOrInt bbIn 10 < jsOrInt sbIn 5 * 2
    · rw [if_pos hbb]
      exact ⟨rfl, _, rfl⟩
    · have hsf : jsOrInt sfIn 1000 < jsOrInt bbIn 10 * 10 := by
        rcases h with h | h
        · omega
        · exact h
      rw [if_neg hbb, if_pos hsf]
      exact ⟨rfl, _, rfl⟩

/-- C6 witness: a valid submission is sent unmodified. -/
theorem createLobby_spec_witness :
    createLobby "ann" "Fun" (some 5) (some 10) (some 150) (some 4) =
      ([.createLobby "Fun" 5 10 150 4], none) := by
  have h := createLobby_spec "ann" "Fun" (some 5) (some 10) (some 150) (some 4)
  have h2 := h.1 (by decide) (by decide)
  simpa using h2

/-! ## Ability-selection manager (`part_001`) -/

/-- Field `chosenBurntCard` as echoed by the server in a step-2 trashman
prompt. -/
structure BurntCard where
  index : Int
  card : String
deriving DecidableEq, Repr

/-- Field `drawnCard` of a manifest prompt. -/
structure DrawnCard where
  Rank : Option String
  Suit : Option String
  Card : Option String
deriving DecidableEq, Repr

/-- The `ability_choice_required` payload fields that
`showAbilitySelection` / `getSelectionData` read. -/
structure ChoiceData where
  abilityUsed : String
  message : Option String
  step : Option Int
  chosenBurntCard : Option BurntCard
  drawnCard : Option DrawnCard
deriving DecidableEq, Repr

/-- What the user currently has selected in the form controls of the dialog:
`none` (or `none`/`none` for the two-grid yoink case) means the required
control is unset.  Select values and `data-index` attributes are the
numerals the interfaces write into them. -/
structure FormState where
  peekPlayer : Option Int
  peekCard : Option Int
  burnChecked : Option String
  selectedIndex : Option Int
  yoinkHoleIndex : Option Int
  yoinkBoardIndex : Option Int
deriving DecidableEq, Repr

/-- Function `getPeekSelection`: null unless both the player and the card select
hold a value. -/
def getPeekSelection (f : FormState) : Option AbilityPayload :=
  match f.peekPlayer, f.peekCard with
  | some pid, some ci => some (.peek pid ci)
  | _, _ => none

/-- Function `getBurnSelection`: null unless a radio is checked; `revealSuit` is
the comparison of the checked value with the string true. -/
def getBurnSelection (f : FormState) : Option AbilityPayload :=
  match f.burnChecked with
  | none => none
  | some v => some (.burn (v = "true"))

/-- Function `getManifestSelection`: null unless a card button is selected; the
rank and suit of the drawn card are passed along when the prompt carried
one. -/
def getManifestSelection (c : ChoiceData) (f : FormState) : Option AbilityPayload :=
  match f.selectedIndex with
  | none => none
  | some i =>
    some (.manifest i (c.drawnCard.bind (fun d => d.Rank)) (c.drawnCard.bind (fun d => d.Suit)))

/-- Function `getTrashmanSelection`: null unless a card button is selected; step
defaulting is JS `step || 1`, and the step-2 burnt index is JS
`chosenBurntCard?.index || 0`. -/
def getTrashmanSelection (c : ChoiceData) (f : FormState) : Option AbilityPayload :=
  match f.selectedIndex with
  | none => none
  | some i =>
    if jsOrInt c.step 1 = 1 then some (.trashman1 i)
    else some (.trashman2 (jsOrInt (c.chosenBurntCard.map (fun b => b.index)) 0) i)

/-- Function `getYoinkSelection`: null unless both grids hold a selection. -/
def getYoinkSelection (f : FormState) : Option AbilityPayload :=
  match f.yoinkHoleIndex, f.yoinkBoardIndex with
  | some h, some b => some (.yoink h b)
  | _, _ => none

/-- The `getSelectionData` dispatch on the lowercased active ability. -/
def getSelectionData (ability : String) (c : ChoiceData) (f : FormState) :
    Option AbilityPayload :=
  if jsToLower ability = "peek" then getPeekSelection f
  else if jsToLower ability = "burn" then getBurnSelection f
  else if jsToLower ability = "manifest" then getManifestSelection c f
  else if jsToLower ability = "trashman" then getTrashmanSelection c f
  else if jsToLower ability = "yoink" then getYoinkSelection f
  else none

/-- The mutable state of the manager: overlay visibility plus the two fields
`currentAbility` and `currentChoices`. -/
structure DialogState where
  visible : Bool
  currentAbility : Option String
  currentChoices : Option ChoiceData
deriving DecidableEq, Repr

/-- Function `hideSelectionWindow`: add the `hidden` class and null both
fields. -/
def hideSelectionWindow (_st : DialogState) : DialogState :=
  { visible := false, currentAbility := none, currentChoices := none }

/-- Function `showAbilitySelection`: store the prompt in both fields and unhide
the overlay. -/
def showAbilitySelection (_st : DialogState) (d : ChoiceData) : DialogState :=
  { visible := true, currentAbility := some d.abilityUsed, currentChoices := some d }

/-- Function `confirmSelection` (part_001, lines 314–334): bail out silently
without an active prompt; with one, a null selection is a logged no-op
that leaves the dialog as it is, and a complete selection emits exactly
one `use_ability` carrying the ability tag and the selection, then hides
the window. -/
def confirmSelection (gameId : String) (st : DialogState) (f : FormState) :
    List OutMsg × DialogState :=
  match st.currentAbility, st.currentChoices with
  | some a, some c =>
    if a = "" then ([], st)
    else
      match getSelectionData a c f with
      | none => ([], st)
      | some p => ([.useAbility gameId a p], hideSelectionWindow st)
  | _, _ => ([], st)

/-- Function `cancelAbility` (part_001, lines 421–428): emit `cancel_ability`,
then hide. -/
def cancelAbility (gameId : String) (st : DialogState) : List OutMsg × DialogState :=
  ([.cancelAbility gameId], hideSelectionWindow st)

/-- The dismiss (×) button handler: hide only, no emit. -/
def closeClick (st : DialogState) : List OutMsg × DialogState :=
  ([], hideSelectionWindow st)

/-- The overlay click handler: hide (no emit) when the click target is
the overlay itself, otherwise do nothing. -/
def outsideClick (st : DialogState) (targetIsOverlay : Bool) : List OutMsg × DialogState :=
  if targetIsOverlay then ([], hideSelectionWindow st) else ([], st)

/-- All user/server events the dialog reacts to. -/
inductive DialogEvent
  | showPrompt (d : ChoiceData)
  | confirmClick (f : FormState)
  | cancelClick
  | closeClick
  | outsideClick (targetIsOverlay : Bool)
deriving DecidableEq, Repr

/-- One dialog transition (the state part; emits are produced by the
functions above). -/
def dialogStep (gameId : String) (st : DialogState) (e : DialogEvent) : DialogState :=
  match e with
  | .showPrompt d => showAbilitySelection st d
  | .confirmClick f => (confirmSelection gameId st f).2
  | .cancelClick => (cancelAbility gameId st).2
  | .closeClick => (closeClick st).2
  | .outsideClick b => (outsideClick st b).2

/-- The freshly constructed manager: overlay created with the `hidden`
class, both fields null. -/
def dialogInit : DialogState :=
  { visible := false, currentAbility := none, currentChoices := none }

/-- The C10 invariant: a hidden window holds no prompt. -/
def dialogInv (st : DialogState) : Prop :=
  st.visible = false → st.currentAbility = none ∧ st.currentChoices = none

/-- Shape agreement between an ability tag and an outbound payload. -/
def payloadMatchesAbility (a : String) (p : AbilityPayload) : Bool :=
  match p with
  | .peek _ _ => jsToLower a = "peek"
  | .burn _ => jsToLower a = "burn"
  | .manifest _ _ _ => jsToLower a = "manifest"
  | .trashman1 _ => jsToLower a = "trashman"
  | .trashman2 _ _ => jsToLower a = "trashman"
  | .yoink _ _ => jsToLower a = "yoink"

/-- The default-0 form of `jsOrInt` is the identity. -/
theorem jsOrInt_some_zero (v : Int) : jsOrInt (some v) 0 = v := by
  by_cases h : v = 0 <;> simp [jsOrInt, h]

/-- Function `getSelectionData` only produces payloads shaped like the active
ability. -/
theorem getSelectionData_shape (a : String) (c : ChoiceData) (f : FormState)
    (p : AbilityPayload) (h : getSelectionData a c f = some p) :
    payloadMatchesAbility a p = true := by
  unfold getSelectionData at h
  split_ifs at h with h1 h2 h3 h4 h5
  · unfold getPeekSelection at h
    split at h
    all_goals cases h
    all_goals simp [payloadMatchesAbility, h1]
  · unfold getBurnSelection at h
    split at h
    all_goals cases h
    all_goals simp [payloadMatchesAbility, h2]
  · unfold getManifestSelection at h
    split at h
    all_goals cases h
    all_goals simp [payloadMatchesAbility, h3]
  · unfold getTrashmanSelection at h
    split at h
    all_goals try split at h
    all_goals cases h
    all_goals simp [payloadMatchesAbility, h4]
  · unfold getYoinkSelection at h
    split at h
    all_goals cases h
    all_goals simp [payloadMatchesAbility, h5]

/-- A form with every control unset. -/
def emptyFormState : FormState :=
  { peekPlayer := none, peekCard := none, burnChecked := none,
    selectedIndex := none, yoinkHoleIndex := none, yoinkBoardIndex := none }

/-- A peek prompt used by the C4 witness. -/
def samplePeekChoices : ChoiceData :=
  { abilityUsed := "peek", message := some "Choose a player and a card"
    step := none, chosenBurntCard := none, drawnCard := none }

/-- The dialog right after `showPrompt` of the peek prompt. -/
def samplePeekDialog : DialogState :=
  { visible := true, currentAbility := some "peek",
    currentChoices := some samplePeekChoices }

/-- A completed peek form: player 2, card 1. -/
def samplePeekForm : FormState :=
  { emptyFormState with peekPlayer := some 2, peekCard := some 1 }

/-- C4: with a prompt active, a confirm whose required fields are not all
set emits nothing and leaves the dialog exactly as it is (open for
correction); a confirm with a complete selection emits exactly one
`use_ability` message whose payload shape matches the active ability tag
and then closes the dialog. -/
theorem confirmSelection_spec (gid : String) (st : DialogState) (a : String)
    (c : ChoiceData) (f : FormState)
    (ha : st.currentAbility = some a) (hne : a ≠ "")
    (hc : st.currentChoices = some c) :
    (getSelectionData a c f = none →
      confirmSelection gid st f = ([], st)) ∧
    (∀ p, getSelectionData a c f = some p →
      confirmSelection gid st f = ([.useAbility gid a p], hideSelectionWindow st) ∧
      payloadMatchesAbility a p = true) := by
  obtain ⟨vis, ca, cc⟩ := st
  dsimp only at ha hc
  subst ha
  subst hc
  unfold confirmSelection
  dsimp only
  rw [if_neg hne]
  constructor
  · intro hnone
    rw [hnone]
  · intro p hp
    rw [hp]
    exact ⟨rfl, getSelectionData_shape a c f p hp⟩

/-- C4 witness: a completed peek confirm emits one shaped message and
closes. -/
theorem confirmSelection_spec_witness :
    confirmSelection "g7" samplePeekDialog samplePeekForm =
      ([.useAbility "g7" "peek" (.peek 2 1)], hideSelectionWindow samplePeekDialog) := by
  have h := confirmSelection_spec "g7" samplePeekDialog "peek" samplePeekChoices
    samplePeekForm rfl (by decide) rfl
  exact (h.2 (.peek 2 1) rfl).1

/-- C8: the explicit Cancel button emits exactly one `cancel_ability` and
closes; the dismiss (×) control and a click on the overlay outside the
window close with no emit at all; all three leave the identical closed
dialog state. -/
theorem cancel_vs_dismiss (gid : String) (st : DialogState) :
    cancelAbility gid st = ([.cancelAbility gid], hideSelectionWindow st) ∧
    closeClick st = ([], hideSelectionWindow st) ∧
    outsideClick st true = ([], hideSelectionWindow st) ∧
    (cancelAbility gid st).2 = (closeClick st).2 ∧
    (closeClick st).2 = (outsideClick st true).2 := by
  refine ⟨rfl, rfl, rfl, rfl, rfl⟩

/-- C9: in a step-2 trashman confirm, the field `burntCardIndex` of the
outbound payload is exactly the index the server echoed back in
`chosenBurntCard` of the step-2 prompt, unmodified (the JS `|| 0` only
fires when `chosenBurntCard` is absent, and maps `0` to itself). -/
theorem trashman_step2_roundtrip (gid : String) (st : DialogState) (c : ChoiceData)
    (b : BurntCard) (f : FormState) (i : Int)
    (ha : st.currentAbility = some "trashman")
    (hc : st.currentChoices = some c)
    (hstep : jsOrInt c.step 1 ≠ 1)
    (hburnt : c.chosenBurntCard = some b)
    (hsel : f.selectedIndex = some i) :
    confirmSelection gid st f =
      ([.useAbility gid "trashman" (.trashman2 b.index i)], hideSelectionWindow st) := by
  obtain ⟨vis, ca, cc⟩ := st
  dsimp only at ha hc
  subst ha
  subst hc
  have hg : getSelectionData "trashman" c f = getTrashmanSelection c f := rfl
  have ht : getTrashmanSelection c f = some (.trashman2 b.index i) := by
    unfold getTrashmanSelection
    rw [hsel]
    dsimp only
    rw [if_neg hstep, hburnt]
    dsimp only [Option.map]
    rw [jsOrInt_some_zero]
  unfold confirmSelection
  dsimp only
  rw [if_neg (by decide), hg, ht]

/-- A step-2 trashman prompt echoing burnt-card index 3. -/
def sampleTrashmanChoices : ChoiceData :=
  { abilityUsed := "trashman", message := some "Choose hole card to discard"
    step := some 2, chosenBurntCard := some { index := 3, card := "King of Hearts" }
    drawnCard := none }

/-- The dialog showing that step-2 prompt. -/
def sampleTrashmanDialog : DialogState :=
  { visible := true, currentAbility := some "trashman",
    currentChoices := some sampleTrashmanChoices }

/-- A form with hole card 1 selected. -/
def sampleTrashmanForm : FormState :=
  { emptyFormState with selectedIndex := some 1 }

/-- C9 witness: echoed index 3 goes out as `burntCardIndex` 3. -/
theorem trashman_step2_roundtrip_witness :
    confirmSelection "g9" sampleTrashmanDialog sampleTrashmanForm =
      ([.useAbility "g9" "trashman" (.trashman2 3 1)],
        hideSelectionWindow sampleTrashmanDialog) := by
  have h := trashman_step2_roundtrip "g9" sampleTrashmanDialog sampleTrashmanChoices
    { index := 3, card := "King of Hearts" } sampleTrashmanForm 1
    rfl rfl (by decide) rfl rfl
  exact h

/-- C10: the freshly built dialog satisfies the hidden-implies-no-prompt
invariant, every dialog event (prompt, confirm, cancel, dismiss, outside
click) preserves it — every hiding path nulls both `currentAbility` and
`currentChoices` — so it holds in all reachable states; and a confirm
click with no active prompt emits no outbound message. -/
theorem dialog_hidden_invariant :
    dialogInv dialogInit ∧
    (∀ gid st e, dialogInv st → dialogInv (dialogStep gid st e)) ∧
    (∀ gid (evs : List DialogEvent), dialogInv (evs.foldl (dialogStep gid) dialogInit)) ∧
    (∀ gid st f, (st.currentAbility = none ∨ st.currentChoices = none) →
      (confirmSelection gid st f).1 = []) := by
  have hinit : dialogInv dialogInit := by
    intro _
    exact ⟨rfl, rfl⟩
  have hhide : ∀ st, dialogInv (hideSelectionWindow st) := by
    intro st _
    exact ⟨rfl, rfl⟩
  have hconfirm2 : ∀ gid st f, (confirmSelection gid st f).2 = st ∨
      (confirmSelection gid st f).2 = hideSelectionWindow st := by
    intro gid st f
    rcases hca : st.currentAbility with _ | a
    · simp [confirmSelection, hca]
    · rcases hcc : st.currentChoices with _ | c
      · simp [confirmSelection, hca, hcc]
      · by_cases hne : a = ""
        · simp [confirmSelection, hca, hcc, hne]
        · rcases hgs : getSelectionData a c f with _ | p
          · simp [confirmSelection, hca, hcc, hne, hgs]
          · simp [confirmSelection, hca, hcc, hne, hgs]
  have hstep : ∀ gid st e, dialogInv st → dialogInv (dialogStep gid st e) := by
    intro gid st e hst
    cases e with
    | showPrompt d =>
      intro hv
      simp [dialogStep, showAbilitySelection] at hv
    | confirmClick f =>
      show dialogInv (confirmSelection gid st f).2
      rcases hconfirm2 gid st f with h | h
      · rw [h]
        exact hst
      · rw [h]
        exact hhide st
    | cancelClick => exact hhide st
    | closeClick => exact hhide st
    | outsideClick b =>
      cases b with
      | false => exact hst
      | true => exact hhide st
  have hfold : ∀ gid (evs : List DialogEvent) st, dialogInv st →
      dialogInv (evs.foldl (dialogStep gid) st) := by
    intro gid evs
    induction evs with
    | nil => intro st h; exact h
    | cons e tl ih =>
      intro st h
      exact ih _ (hstep gid st e h)
  have hnoprompt : ∀ gid st f, (st.currentAbility = none ∨ st.currentChoices = none) →
      (confirmSelection gid st f).1 = [] := by
    intro gid st f h
    rcases hca : st.currentAbility with _ | a
    · simp [confirmSelection, hca]
    · rcases h with h | h
      · rw [hca] at h
        cases h
      · simp [confirmSelection, hca, h]
  exact ⟨hinit, hstep, fun gid evs => hfold gid evs dialogInit hinit, hnoprompt⟩

/-- C10 witness: a confirm click on the freshly built (hidden, no-prompt)
dialog emits nothing. -/
theorem dialog_hidden_invariant_witness :
    (confirmSelection "g1" dialogInit emptyFormState).1 = [] := by
  have h := dialog_hidden_invariant
  exact h.2.2.2 "g1" dialogInit emptyFormState (Or.inl rfl)
